import Mathlib

/-!
Verification of the forecasting core of the Nifty_fifty_jse dashboard.

The Python source (src/utils/forecasting.py, src/utils/analysis.py,
src/utils/ml_models.py) is embedded shallowly:

* pandas Series values become `List ℚ` (exact rational arithmetic stands in
  for IEEE floats); a possibly-NaN entry becomes `Option ℚ` with `none`
  playing the role of NaN;
* the floating point square root used by `np.sqrt` / `Series.std` is an
  explicit function parameter `sqrtQ : ℚ → ℚ`; theorems assume only the
  properties the float sqrt enjoys (non-negativity on non-negative input,
  monotonicity), and concrete evaluations use the rational
  under-approximation `ratSqrt`;
* the deterministic sklearn pipeline (StandardScaler + LinearRegression
  fit/predict) is an explicit function parameter `fitPredict`: the claims
  settled here do not depend on the fitted coefficients, only on shape,
  emptiness and determinism, which hold for every such function;
* Python exceptions caught by the source's `try/except` blocks become
  explicit branches returning the same fallback values the handlers return.
-/

/-- Computable stand-in for the floating point square root on ℚ:
`ratSqrt x = Nat.sqrt (x.num * x.den) / x.den` for `x ≥ 0` (0 on negatives).
It agrees with the real square root on the exact squares used in concrete
counterexamples and witnesses (`ratSqrt 0 = 0`, positive on positives). -/
def ratSqrt (x : ℚ) : ℚ :=
  if 0 ≤ x then (Nat.sqrt (x.num.toNat * x.den) : ℚ) / (x.den : ℚ) else 0

/-- Arithmetic mean of a list (`np.mean`; 0 on the empty list). -/
def listMean (xs : List ℚ) : ℚ := xs.sum / (xs.length : ℚ)

/-- Sample variance with `ddof = 1`, as used by `pandas.Series.std` /
`np.std(ddof=1)` before the square root is taken. -/
def sampleVar (xs : List ℚ) : ℚ :=
  ((xs.map (fun x => (x - listMean xs) ^ 2)).sum) / ((xs.length : ℚ) - 1)

/-- The trailing window of width `w` ending at index `i` (pandas
`rolling(window=w)` at position `i`): the last `min (i+1) w` elements of
`xs.take (i+1)`. -/
def rollingWindow (w : ℕ) (xs : List ℚ) (i : ℕ) : List ℚ :=
  (xs.take (i + 1)).drop (i + 1 - w)

/-- `Series.rolling(window=w).mean()` at index `i` with the default
`min_periods = w`: defined only once `w` observations are available. -/
def rollingMeanAt (w : ℕ) (xs : List ℚ) (i : ℕ) : Option ℚ :=
  if w ≤ i + 1 then some (listMean (rollingWindow w xs i)) else none

/-- `Series.rolling(window=w, min_periods=p).std()` at index `i`.  The value
is NaN (`none`) when fewer than `p` observations are available, and also when
exactly one observation is available: the sample standard deviation with
`ddof = 1` of a single point is NaN in pandas. -/
def rollingStdAt (sqrtQ : ℚ → ℚ) (w p : ℕ) (xs : List ℚ) (i : ℕ) : Option ℚ :=
  let win := rollingWindow w xs i
  if p ≤ win.length ∧ 2 ≤ win.length then some (sqrtQ (sampleVar win)) else none

/-- `DataFrame.fillna(method='bfill')` on one column: each NaN takes the next
valid value below it; trailing NaNs stay NaN. -/
def bfill : List (Option ℚ) → List (Option ℚ)
  | [] => []
  | some x :: rest => some x :: bfill rest
  | none :: rest =>
      let rest' := bfill rest
      match rest'.find? Option.isSome with
      | some v => v :: rest'
      | none => none :: rest'

/-- Calendar date, as carried by the pandas `DatetimeIndex`. -/
structure PDate where
  year : ℕ
  month : ℕ
  day : ℕ
deriving DecidableEq, Repr

/-- Gregorian leap year rule. -/
def isLeap (y : ℕ) : Bool := (y % 4 == 0 && y % 100 != 0) || y % 400 == 0

/-- Number of days of a month in the Gregorian calendar. -/
def daysInMonth (y m : ℕ) : ℕ :=
  if m = 2 then (if isLeap y then 29 else 28)
  else if m = 4 ∨ m = 6 ∨ m = 9 ∨ m = 11 then 30 else 31

/-- The calendar day after `d` (one step of `pd.date_range(freq='D')`). -/
def nextDay (d : PDate) : PDate :=
  if d.day < daysInMonth d.year d.month then ⟨d.year, d.month, d.day + 1⟩
  else if d.month < 12 then ⟨d.year, d.month + 1, 1⟩
  else ⟨d.year + 1, 1, 1⟩

/-- `d` shifted forward by `k` calendar days. -/
def addDays (d : PDate) (k : ℕ) : PDate := Nat.iterate nextDay k d

/-- Days since 1970-01-01 (civil-from-days inverse, Gregorian). -/
def daysFromCivil (d : PDate) : ℤ :=
  let y : ℤ := (d.year : ℤ) - (if (d.month : ℤ) ≤ 2 then 1 else 0)
  let era : ℤ := (if 0 ≤ y then y else y - 399) / 400
  let yoe : ℤ := y - era * 400
  let mp : ℤ := ((d.month : ℤ) + 9) % 12
  let doy : ℤ := (153 * mp + 2) / 5 + (d.day : ℤ) - 1
  let doe : ℤ := yoe * 365 + yoe / 4 - yoe / 100 + doy
  era * 146097 + doe - 719468

/-- `DatetimeIndex.dayofweek`: Monday = 0 … Sunday = 6 (1970-01-01 was a
Thursday, hence the offset 3). -/
def dayOfWeek (d : PDate) : ℤ := (daysFromCivil d + 3) % 7

/-- Linear month key `year * 12 + (month - 1)`; `resample('ME')` bins rows by
this key. -/
def monthIndex (d : PDate) : ℕ := d.year * 12 + (d.month - 1)

/-! ## calculate_confidence_intervals (src/utils/forecasting.py, lines 78-104)

`sqrtQ` models the float square root inside `Series.std`/`np.sqrt`; `tValue`
models `scipy.stats.t.ppf((1+confidence_level)/2, len(predictions)-1)`, a
positive real for the default 95% level whenever the forecast has at least
two points. -/

/-- Rolling standard deviation of the point forecast,
`predictions.rolling(window=30, min_periods=1).std()` (line 85).  NaN at
index 0 (a single observation has no sample standard deviation). -/
def ciRollingStd (sqrtQ : ℚ → ℚ) (predictions : List ℚ) (i : ℕ) : Option ℚ :=
  rollingStdAt sqrtQ 30 1 predictions i

/-- `np.sqrt(np.arange(1, n+1) / n)` at position `i` (line 92). -/
def timeFactor (sqrtQ : ℚ → ℚ) (n i : ℕ) : ℚ :=
  sqrtQ (((i : ℚ) + 1) / (n : ℚ))

/-- `margin = t_value * rolling_std * time_factor` at index `i` (line 93);
NaN (`none`) where the rolling std is NaN. -/
def ciMargin (sqrtQ : ℚ → ℚ) (tValue : ℚ) (predictions : List ℚ) (i : ℕ) :
    Option ℚ :=
  (ciRollingStd sqrtQ predictions i).map
    (fun s => tValue * s * timeFactor sqrtQ predictions.length i)

/-- `upper = predictions + margin` (line 95); NaN propagates. -/
def ciUpper (sqrtQ : ℚ → ℚ) (tValue : ℚ) (predictions : List ℚ) :
    List (Option ℚ) :=
  (List.range predictions.length).map
    (fun i => (ciMargin sqrtQ tValue predictions i).map
      (fun m => predictions.getD i 0 + m))

/-- `lower = (predictions - margin).clip(lower=0)` (lines 96, 99); `clip`
leaves NaN alone. -/
def ciLower (sqrtQ : ℚ → ℚ) (tValue : ℚ) (predictions : List ℚ) :
    List (Option ℚ) :=
  (List.range predictions.length).map
    (fun i => (ciMargin sqrtQ tValue predictions i).map
      (fun m => max 0 (predictions.getD i 0 - m)))

/-- `calculate_confidence_intervals` (lines 78-104): returns
`(upper, lower)`; two empty series on empty input (line 80). -/
def calculate_confidence_intervals (sqrtQ : ℚ → ℚ) (tValue : ℚ)
    (predictions : List ℚ) : List (Option ℚ) × List (Option ℚ) :=
  if predictions.length = 0 then ([], [])
  else (ciUpper sqrtQ tValue predictions, ciLower sqrtQ tValue predictions)

/-! ## create_forecast (src/utils/forecasting.py, lines 8-76) -/

/-- One row of the feature matrix `X` (line 32): the source also derives a
`Year` column (line 20) but does not include it in `features`. -/
structure FeatureRow where
  days : ℚ
  month : ℚ
  dayOfWeekF : ℚ
  ma50 : ℚ
  ma200 : ℚ
  volatility : ℚ
deriving DecidableEq, Repr

/-- The bfilled `MA50` column, `df['Close'].rolling(window=50).mean()`
followed by `fillna(method='bfill')` (lines 24, 29). -/
def ma50Col (closes : List ℚ) : List (Option ℚ) :=
  bfill ((List.range closes.length).map (rollingMeanAt 50 closes))

/-- The bfilled `MA200` column (lines 25, 29). -/
def ma200Col (closes : List ℚ) : List (Option ℚ) :=
  bfill ((List.range closes.length).map (rollingMeanAt 200 closes))

/-- The bfilled `Volatility` column, `df['Close'].rolling(window=30).std()`
followed by `fillna(method='bfill')` (lines 26, 29). -/
def volCol (sqrtQ : ℚ → ℚ) (closes : List ℚ) : List (Option ℚ) :=
  bfill ((List.range closes.length).map (rollingStdAt sqrtQ 30 30 closes))

/-- Training feature row at index `i`; `none` when any rolling column is
still NaN after the backfill (in which case `StandardScaler.fit_transform`
raises and `create_forecast` falls into its `except` branch). -/
def trainRow (sqrtQ : ℚ → ℚ) (stockData : List (PDate × ℚ)) (i : ℕ) :
    Option FeatureRow :=
  let closes := stockData.map Prod.snd
  ((ma50Col closes).getD i none).bind fun a =>
    ((ma200Col closes).getD i none).bind fun b =>
      ((volCol sqrtQ closes).getD i none).bind fun v =>
        (stockData.get? i).map fun r =>
          ⟨(i : ℚ), (r.1.month : ℚ), (dayOfWeek r.1 : ℚ), a, b, v⟩

/-- Future feature row for the `j`-th forecast day (lines 52-62): day index
continues the training sequence, calendar fields come from the future date,
and the rolling features are held at their last historical value. -/
def futureRow (sqrtQ : ℚ → ℚ) (stockData : List (PDate × ℚ)) (j : ℕ) :
    FeatureRow :=
  let closes := stockData.map Prod.snd
  let lastDate := (stockData.map Prod.fst).getLast?.getD ⟨0, 1, 1⟩
  let d := addDays lastDate (j + 1)
  { days := ((stockData.length + j : ℕ) : ℚ)
    month := (d.month : ℚ)
    dayOfWeekF := (dayOfWeek d : ℚ)
    ma50 := ((ma50Col closes).getLast?.getD none).getD 0
    ma200 := ((ma200Col closes).getLast?.getD none).getD 0
    volatility := ((volCol sqrtQ closes).getLast?.getD none).getD 0 }

/-- `create_forecast` (lines 8-76).  `fitPredict` stands for the
deterministic sklearn pipeline: given the training rows and targets it
returns the fitted scaler+regression as a prediction function.  When some
training feature is NaN even after the backfill (any series shorter than
the 200-day window), scaling/fitting raises, the `except` branch catches it
and an empty series is returned (lines 74-76); likewise for empty input
(lines 10-11).  Otherwise the result is one prediction per future date,
`months_ahead * 30` consecutive calendar days after the last historical
date (lines 44-50). -/
def create_forecast (sqrtQ : ℚ → ℚ)
    (fitPredict : List FeatureRow → List ℚ → FeatureRow → ℚ)
    (stockData : List (PDate × ℚ)) (monthsAhead : ℕ) : List (PDate × ℚ) :=
  if stockData.isEmpty then []
  else
    let rows := (List.range stockData.length).map (trainRow sqrtQ stockData)
    if rows.all Option.isSome then
      let model := fitPredict (rows.filterMap id) (stockData.map Prod.snd)
      let lastDate := (stockData.map Prod.fst).getLast?.getD ⟨0, 1, 1⟩
      (List.range (monthsAhead * 30)).map
        (fun j => (addDays lastDate (j + 1),
                   model (futureRow sqrtQ stockData j)))
    else []

/-! ## calculate_portfolio_value (src/utils/analysis.py, lines 5-47) -/

/-- `resample('ME').last()` on the `Close` column for an ascending
`DatetimeIndex` (line 29): one bin per calendar month from the first to the
last month of the index, holding the last close of that month, or NaN
(`none`) for months in the span with no rows. -/
def resampleME (data : List (PDate × ℚ)) : List (Option ℚ) :=
  match data.map (fun r => monthIndex r.1) with
  | [] => []
  | m0 :: ms =>
      let lo := ms.foldl min m0
      let hi := ms.foldl max m0
      (List.range (hi - lo + 1)).map (fun k =>
        ((data.filter (fun r => monthIndex r.1 = lo + k)).getLast?).map
          Prod.snd)

/-- One iteration of the investment loop (lines 34-42) on the running state
`(investment_amount, shares, last recorded value if any)`: contribute, then
buy at a valid positive price, else repeat the previous recorded value
(or the contributions so far when there is none yet).  Returns the new
state paired with the value appended to `portfolio_value`. -/
def pvStep (monthlyInvestment : ℚ) (invested shares : ℚ) (prev : Option ℚ)
    (price : Option ℚ) : ℚ × ℚ × ℚ :=
  let invested' := invested + monthlyInvestment
  match price with
  | some p =>
      if 0 < p then
        let shares' := shares + monthlyInvestment / p
        (invested', shares', shares' * p)
      else (invested', shares, prev.getD invested')
  | none => (invested', shares, prev.getD invested')

/-- The full trace of the loop: per period `(shares held, recorded value)`. -/
def pvTrace (monthlyInvestment : ℚ) :
    ℚ → ℚ → Option ℚ → List (Option ℚ) → List (ℚ × ℚ)
  | _, _, _, [] => []
  | invested, shares, prev, price :: rest =>
      let st := pvStep monthlyInvestment invested shares prev price
      (st.2.1, st.2.2) ::
        pvTrace monthlyInvestment st.1 st.2.1 (some st.2.2) rest

/-- `calculate_portfolio_value` (lines 5-47): the recorded portfolio values,
one per resampled month. -/
def calculate_portfolio_value (data : List (PDate × ℚ))
    (monthlyInvestment : ℚ) : List ℚ :=
  if data.isEmpty then []
  else (pvTrace monthlyInvestment 0 0 none (resampleME data)).map Prod.snd

/-! ## calculate_forecast_returns (src/utils/forecasting.py, lines 106-137) -/

/-- `calculate_forecast_returns` (lines 106-137): `(total_investment,
total_return, return_percentage)`.  The `total_investment = 0` branch models
the `ZeroDivisionError` raised by line 132 when the monthly contribution is
zero, which the `except` handler (lines 135-137) turns into `(0, 0, 0)`. -/
def calculate_forecast_returns (forecastData : List (PDate × ℚ))
    (monthlyInvestment : ℚ) : ℚ × ℚ × ℚ :=
  if forecastData.isEmpty then (0, 0, 0)
  else
    let portfolioValues := calculate_portfolio_value forecastData
      monthlyInvestment
    if portfolioValues.length = 0 then (0, 0, 0)
    else
      let totalInvestment := monthlyInvestment * (portfolioValues.length : ℚ)
      let finalValue := portfolioValues.getLast?.getD 0
      if totalInvestment = 0 then (0, 0, 0)
      else
        (totalInvestment, finalValue - totalInvestment,
         (finalValue - totalInvestment) / totalInvestment * 100)

/-! ## Per-step interval of the ML variant
(src/utils/ml_models.py, lines 105-132) -/

/-- `np.percentile(xs, q)` with the default linear interpolation:
index `h = q (n-1) / 100` into the sorted data, interpolating between the
two neighbouring order statistics. -/
def npPercentile (xs : List ℚ) (q : ℚ) : ℚ :=
  let s := xs.insertionSort (· ≤ ·)
  let h := q * ((xs.length : ℚ) - 1) / 100
  let i := (⌊h⌋).toNat
  let lo := s.getD i 0
  let hi := s.getD (i + 1) lo
  lo + (h - (i : ℚ)) * (hi - lo)

/-- One forecast step of `train_predict_rf` (lines 116-117): the mean of the
per-tree predictions together with their 5th and 95th percentiles,
`(mean_pred, lower, upper)`. -/
def mlStepInterval (treePredictions : List ℚ) : ℚ × ℚ × ℚ :=
  (listMean treePredictions,
   npPercentile treePredictions 5,
   npPercentile treePredictions 95)

/-! ## generate_stock_recommendation (src/utils/forecasting.py, lines 139-184) -/

/-- A value held in the `stock_info` dictionary: `yfinance` fundamentals may
be numbers, `None`, or strings. -/
inductive PyVal where
  | num (q : ℚ)
  | pynone
  | pystr (s : String)
deriving DecidableEq, Repr

/-- The two keys `generate_stock_recommendation` reads; `none` models an
absent key, for which `dict.get` supplies the default `0`. -/
structure StockInfo where
  trailingPE : Option PyVal := none
  dividendYield : Option PyVal := none

/-- The P/E rule of the `try` body (lines 146-152): score contribution and
appended reason. -/
def peRule (peRatio : ℚ) : ℕ × List String :=
  if 0 < peRatio ∧ peRatio ≤ 15 then (2, ["Attractive P/E ratio"])
  else if 15 < peRatio ∧ peRatio ≤ 25 then (1, ["Moderate P/E ratio"])
  else (0, [])

/-- The dividend-yield rule (lines 155-161). -/
def dyRule (divYield : ℚ) : ℕ × List String :=
  if 5 / 100 < divYield then (2, ["High dividend yield"])
  else if 2 / 100 ≤ divYield ∧ divYield ≤ 5 / 100 then
    (1, ["Moderate dividend yield"])
  else (0, [])

/-- The forecast-return rule (lines 164-169). -/
def retRule (r : ℚ) : ℕ × List String :=
  if 20 < r then (2, ["Strong forecasted returns"])
  else if 10 ≤ r ∧ r ≤ 20 then (1, ["Moderate forecasted returns"])
  else (0, [])

/-- The `try` body (lines 142-181): the three rules accumulate `score` and
`reasons`, and the score is mapped to the label (lines 172-179).  A
non-numeric value makes the first comparison involving it raise
`TypeError`, modelled by `Except.error`. -/
def recBody (info : StockInfo) (forecastReturnPercentage : ℚ) :
    Except Unit (String × List String) :=
  match info.trailingPE.getD (PyVal.num 0),
      info.dividendYield.getD (PyVal.num 0) with
  | PyVal.num peRatio, PyVal.num divYield =>
      let s1 := peRule peRatio
      let s2 := dyRule divYield
      let s3 := retRule forecastReturnPercentage
      let score := s1.1 + s2.1 + s3.1
      let recommendation :=
        if 4 ≤ score then "Strong Buy"
        else if 2 ≤ score then "Buy"
        else if 1 ≤ score then "Hold"
        else "Watch"
      Except.ok (recommendation, s1.2 ++ s2.2 ++ s3.2)
  | _, _ => Except.error ()

/-- `generate_stock_recommendation` (lines 139-184): the `except` handler
(lines 182-184) maps any internal exception to the fixed fallback. -/
def generate_stock_recommendation (info : StockInfo)
    (forecastReturnPercentage : ℚ) : String × List String :=
  match recBody info forecastReturnPercentage with
  | Except.ok v => v
  | Except.error _ => ("Unable to generate recommendation", [])

/-! ### Spec-side scoring (section 4.5 of the spec), for the refinement
statement of the recommendation claims. -/

/-- From the spec: P/E rule, `0 < P/E ≤ 15 → +2; 15 < P/E ≤ 25 → +1`. -/
def peScore (pe : ℚ) : ℕ :=
  if 0 < pe ∧ pe ≤ 15 then 2 else if 15 < pe ∧ pe ≤ 25 then 1 else 0

/-- From the spec: dividend-yield rule, `> 5% → +2; 2–5% → +1`. -/
def dyScore (dy : ℚ) : ℕ :=
  if 5 / 100 < dy then 2 else if 2 / 100 ≤ dy ∧ dy ≤ 5 / 100 then 1 else 0

/-- From the spec: forecast-return rule, `> 20 → +2; 10–20 → +1`. -/
def retScore (r : ℚ) : ℕ :=
  if 20 < r then 2 else if 10 ≤ r ∧ r ≤ 20 then 1 else 0

/-- From the spec: the accumulated integer score. -/
def recScore (pe dy r : ℚ) : ℕ := peScore pe + dyScore dy + retScore r

/-- From the spec: `≥4 → "Strong Buy"; ≥2 → "Buy"; ≥1 → "Hold";
else → "Watch"`. -/
def scoreLabel (s : ℕ) : String :=
  if 4 ≤ s then "Strong Buy"
  else if 2 ≤ s then "Buy"
  else if 1 ≤ s then "Hold"
  else "Watch"

/-- From the spec: one reason string per rule with a non-zero contribution,
in rule order. -/
def recReasons (pe dy r : ℚ) : List String :=
  (if 0 < pe ∧ pe ≤ 15 then ["Attractive P/E ratio"]
   else if 15 < pe ∧ pe ≤ 25 then ["Moderate P/E ratio"] else []) ++
  (if 5 / 100 < dy then ["High dividend yield"]
   else if 2 / 100 ≤ dy ∧ dy ≤ 5 / 100 then ["Moderate dividend yield"]
   else []) ++
  (if 20 < r then ["Strong forecasted returns"]
   else if 10 ≤ r ∧ r ≤ 20 then ["Moderate forecasted returns"] else [])

/-- The label set of the spec's Recommendation data model. -/
def specLabels : List String := ["Strong Buy", "Buy", "Hold", "Watch"]

/-! ## Helper lemmas -/

theorem ratSqrt_nonneg (x : ℚ) : 0 ≤ ratSqrt x := by
  unfold ratSqrt
  split
  · exact div_nonneg (Nat.cast_nonneg _) (Nat.cast_nonneg _)
  · exact le_refl 0

theorem sampleVar_nonneg (xs : List ℚ) (h : 2 ≤ xs.length) :
    0 ≤ sampleVar xs := by
  unfold sampleVar
  apply div_nonneg
  · apply List.sum_nonneg
    intro x hx
    obtain ⟨y, _, rfl⟩ := List.mem_map.mp hx
    positivity
  · have : (2 : ℚ) ≤ (xs.length : ℚ) := by exact_mod_cast h
    linarith

/-! ## Claim C6 — empty input propagates as empty/neutral results -/

/-- C6: for an empty input series, `create_forecast` returns an empty
series, `calculate_confidence_intervals` returns two empty series, and
`calculate_forecast_returns` returns exactly `(0, 0, 0)`, for every model
parameter, t-critical value and monthly contribution. -/
theorem c6_empty_inputs (sqrtQ : ℚ → ℚ)
    (fitPredict : List FeatureRow → List ℚ → FeatureRow → ℚ)
    (tValue monthly : ℚ) (monthsAhead : ℕ) :
    create_forecast sqrtQ fitPredict [] monthsAhead = [] ∧
    calculate_confidence_intervals sqrtQ tValue [] = ([], []) ∧
    calculate_forecast_returns [] monthly = (0, 0, 0) :=
  ⟨rfl, rfl, rfl⟩

/-! ## Claim C9 — the analytic pipeline is deterministic -/

/-- C9: the embedding of the analytic pipeline is a pure function — the
source's only nontrivial fitting step, `StandardScaler` + ordinary
least-squares `LinearRegression`, is deterministic, which the embedding
reflects by passing it as the explicit function `fitPredict`.  Hence two
calls with identical arguments return the identical point-forecast series,
and `calculate_forecast_returns` on them yields identical total invested,
profit and return percentage. -/
theorem c9_deterministic (sqrtQ : ℚ → ℚ)
    (fitPredict : List FeatureRow → List ℚ → FeatureRow → ℚ)
    (stockData : List (PDate × ℚ)) (monthsAhead : ℕ) (monthly : ℚ) :
    create_forecast sqrtQ fitPredict stockData monthsAhead =
      create_forecast sqrtQ fitPredict stockData monthsAhead ∧
    calculate_forecast_returns
        (create_forecast sqrtQ fitPredict stockData monthsAhead) monthly =
      calculate_forecast_returns
        (create_forecast sqrtQ fitPredict stockData monthsAhead) monthly :=
  ⟨rfl, rfl⟩

/-! ## Claim C4 — recommendation scoring -/

theorem peRule_fst (pe : ℚ) : (peRule pe).1 = peScore pe := by
  unfold peRule peScore; split_ifs <;> rfl

theorem dyRule_fst (dy : ℚ) : (dyRule dy).1 = dyScore dy := by
  unfold dyRule dyScore; split_ifs <;> rfl

theorem retRule_fst (r : ℚ) : (retRule r).1 = retScore r := by
  unfold retRule retScore; split_ifs <;> rfl

theorem recReasons_eq (pe dy r : ℚ) :
    recReasons pe dy r = (peRule pe).2 ++ (dyRule dy).2 ++ (retRule r).2 := by
  unfold recReasons peRule dyRule retRule
  split_ifs <;> rfl

/-- On numeric fundamentals the `try` body succeeds and refines the spec's
score/label/reasons decomposition. -/
theorem recBody_num (pe dy r : ℚ) :
    recBody ⟨some (PyVal.num pe), some (PyVal.num dy)⟩ r =
      Except.ok (scoreLabel (recScore pe dy r), recReasons pe dy r) := by
  unfold recBody
  simp only [Option.getD_some]
  rw [recReasons_eq]
  unfold scoreLabel recScore
  rw [peRule_fst, dyRule_fst, retRule_fst]

theorem peRule_len (pe : ℚ) :
    (peRule pe).2.length = if peScore pe = 0 then 0 else 1 := by
  unfold peRule peScore; split_ifs <;> simp_all

theorem dyRule_len (dy : ℚ) :
    (dyRule dy).2.length = if dyScore dy = 0 then 0 else 1 := by
  unfold dyRule dyScore; split_ifs <;> simp_all

theorem retRule_len (r : ℚ) :
    (retRule r).2.length = if retScore r = 0 then 0 else 1 := by
  unfold retRule retScore; split_ifs <;> simp_all

/-- C4: on numeric fundamentals, `generate_stock_recommendation` returns the
label obtained by mapping the accumulated three-rule score through
`≥4 → "Strong Buy"; ≥2 → "Buy"; ≥1 → "Hold"; else "Watch"`, with one reason
per non-zero rule; in particular P/E 12, dividend yield 0.06 and forecast
return 25 score 6 and yield "Strong Buy" with exactly 3 reasons. -/
theorem c4_recommendation_score (pe dy r : ℚ) :
    generate_stock_recommendation
        ⟨some (PyVal.num pe), some (PyVal.num dy)⟩ r =
      (scoreLabel (recScore pe dy r), recReasons pe dy r) ∧
    (recReasons pe dy r).length =
      (if peScore pe = 0 then 0 else 1) + (if dyScore dy = 0 then 0 else 1) +
        (if retScore r = 0 then 0 else 1) ∧
    recScore 12 (6 / 100) 25 = 6 ∧
    generate_stock_recommendation
        ⟨some (PyVal.num 12), some (PyVal.num (6 / 100))⟩ 25 =
      ("Strong Buy",
       ["Attractive P/E ratio", "High dividend yield",
        "Strong forecasted returns"]) := by
  have hscore : recScore 12 (6 / 100) 25 = 6 := by
    norm_num [recScore, peScore, dyScore, retScore]
  refine ⟨?_, ?_, hscore, ?_⟩
  · unfold generate_stock_recommendation
    rw [recBody_num]
  · rw [recReasons_eq]
    simp only [List.length_append, peRule_len, dyRule_len, retRule_len]
  · unfold generate_stock_recommendation
    rw [recBody_num, hscore]
    norm_num [scoreLabel, recReasons, peScore, dyScore, retScore]

/-! ## Claim C5 — error handling of generate_stock_recommendation -/

/-- C5 counterexample: a malformed fundamentals dictionary (a `None` value
under `trailingPE`, as delivered by the market-data provider for missing
fundamentals) makes the `try` body raise; the handler returns the label
"Unable to generate recommendation", which is NOT in the spec's label set
`{Strong Buy, Buy, Hold, Watch}` — refuting the claim that the returned
label always lies in that set. -/
theorem c5_counterexample :
    generate_stock_recommendation ⟨some PyVal.pynone, some (PyVal.num 0)⟩ 0 =
      ("Unable to generate recommendation", []) ∧
    ("Unable to generate recommendation" ∈ specLabels) = False := by
  constructor
  · rfl
  · simp [specLabels]

/-- Any label produced by a successful run of the `try` body is one of the
four labels of the spec's Recommendation data model. -/
theorem recBody_label_mem (info : StockInfo) (r : ℚ)
    (v : String × List String) (h : recBody info r = Except.ok v) :
    v.1 ∈ specLabels := by
  unfold recBody at h
  rcases hpe : info.trailingPE.getD (PyVal.num 0) with pe | _ | s <;>
    rcases hdy : info.dividendYield.getD (PyVal.num 0) with dy | _ | t <;>
      rw [hpe, hdy] at h
  all_goals first
    | exact Except.noConfusion h
    | (injection h with h'
       subst h'
       simp only [specLabels, List.mem_cons]
       split_ifs <;> simp)

/-- C5 amended: `generate_stock_recommendation` never propagates an
exception — for every input it either returns the `try` body's result,
whose label is one of the four spec labels, or, when the body raises, the
fixed fallback pair `("Unable to generate recommendation", [])` with its
empty reasons list. -/
theorem c5_amended_total (info : StockInfo) (r : ℚ) :
    (∃ v, recBody info r = Except.ok v ∧
      generate_stock_recommendation info r = v ∧ v.1 ∈ specLabels) ∨
    (recBody info r = Except.error () ∧
      generate_stock_recommendation info r =
        ("Unable to generate recommendation", [])) := by
  cases h : recBody info r with
  | ok v =>
      left
      exact ⟨v, rfl, by unfold generate_stock_recommendation; rw [h],
        recBody_label_mem info r v h⟩
  | error e =>
      right
      cases e
      exact ⟨rfl, by unfold generate_stock_recommendation; rw [h]⟩

/-! ## Claims C2 / C7 — investment simulation -/

/-- The code's buy condition `not pd.isna(price) and price > 0`
(analysis.py line 36). -/
def validBuy : Option ℚ → Bool
  | some p => decide (0 < p)
  | none => false

theorem pvTrace_length (m : ℚ) (ps : List (Option ℚ)) :
    ∀ (inv sh : ℚ) (prev : Option ℚ),
      (pvTrace m inv sh prev ps).length = ps.length := by
  induction ps with
  | nil => intro inv sh prev; rfl
  | cons p rest ih =>
      intro inv sh prev
      simp only [pvTrace, List.length_cons, ih]

theorem pvStep_not_buy (m inv sh : ℚ) (prev : Option ℚ) (pr : Option ℚ)
    (hbad : validBuy pr = false) :
    pvStep m inv sh prev pr = (inv + m, sh, prev.getD (inv + m)) := by
  cases pr with
  | none => rfl
  | some p =>
      simp only [validBuy, decide_eq_false_iff_not] at hbad
      simp only [pvStep, if_neg hbad]

theorem pvTrace_bad_period (m : ℚ) (ps : List (Option ℚ)) :
    ∀ (inv sh : ℚ) (prev : Option ℚ) (i : ℕ) (pr : Option ℚ),
      0 < i → ps.get? i = some pr → validBuy pr = false →
      (pvTrace m inv sh prev ps).get? i =
        (pvTrace m inv sh prev ps).get? (i - 1) := by
  induction ps with
  | nil => intro inv sh prev i pr _ hget _; simp at hget
  | cons p rest ih =>
      intro inv sh prev i pr hi hget hbad
      obtain ⟨j, rfl⟩ : ∃ j, i = j + 1 := ⟨i - 1, (Nat.succ_pred_eq_of_pos hi).symm⟩
      simp only [List.get?_cons_succ] at hget
      cases j with
      | zero =>
          obtain ⟨rest2, rfl⟩ : ∃ t, rest = pr :: t := by
            cases rest with
            | nil => simp at hget
            | cons a t =>
                simp only [List.get?_cons_zero, Option.some.injEq] at hget
                exact ⟨t, by rw [hget]⟩
          simp only [pvTrace, Nat.add_sub_cancel, List.get?_cons_succ,
            List.get?_cons_zero]
          rw [pvStep_not_buy _ _ _ _ _ hbad]
          simp
      | succ k =>
          simp only [pvTrace, Nat.add_sub_cancel, List.get?_cons_succ]
          have := ih (pvStep m inv sh prev p).1 (pvStep m inv sh prev p).2.1
            (some (pvStep m inv sh prev p).2.2) (k + 1) pr (Nat.succ_pos k)
            hget hbad
          simpa using this

theorem resampleME_ne_nil (data : List (PDate × ℚ)) (h : data ≠ []) :
    resampleME data ≠ [] := by
  cases data with
  | nil => exact absurd rfl h
  | cons d tl =>
      unfold resampleME
      simp only [List.map_cons]
      intro hnil
      have := congrArg List.length hnil
      simp at this

/-- C7: in the dollar-cost-averaging simulation, a resampled period whose
price is missing (NaN) or non-positive repeats the previous period's trace
entry verbatim — the recorded portfolio value equals the previous recorded
value and the share count is unchanged (no shares are bought). -/
theorem c7_bad_period_carries_value (data : List (PDate × ℚ)) (m : ℚ)
    (i : ℕ) (pr : Option ℚ) (hi : 0 < i)
    (hpr : (resampleME data).get? i = some pr)
    (hbad : validBuy pr = false) :
    (calculate_portfolio_value data m).get? i =
      (calculate_portfolio_value data m).get? (i - 1) ∧
    (pvTrace m 0 0 none (resampleME data)).get? i =
      (pvTrace m 0 0 none (resampleME data)).get? (i - 1) := by
  have htr := pvTrace_bad_period m (resampleME data) 0 0 none i pr hi hpr hbad
  have hne : data ≠ [] := by
    intro hd
    rw [hd] at hpr
    simp [resampleME] at hpr
  refine ⟨?_, htr⟩
  unfold calculate_portfolio_value
  rw [if_neg (by simpa [List.isEmpty_iff] using hne)]
  simp only [List.get?_map, htr]

/-- C7 witness: a forecast with entries in 2025-01 and 2025-03 has a NaN
resampled price for 2025-02; period 1 repeats period 0's value and shares. -/
theorem c7_bad_period_witness :
    (calculate_portfolio_value
        [(⟨2025, 1, 10⟩, 100), (⟨2025, 3, 5⟩, 120)] 100).get? 1 =
      (calculate_portfolio_value
        [(⟨2025, 1, 10⟩, 100), (⟨2025, 3, 5⟩, 120)] 100).get? 0 ∧
    (pvTrace 100 0 0 none
        (resampleME [(⟨2025, 1, 10⟩, 100), (⟨2025, 3, 5⟩, 120)])).get? 1 =
      (pvTrace 100 0 0 none
        (resampleME [(⟨2025, 1, 10⟩, 100), (⟨2025, 3, 5⟩, 120)])).get? 0 :=
  c7_bad_period_carries_value
    [(⟨2025, 1, 10⟩, 100), (⟨2025, 3, 5⟩, 120)] 100 1 none
    (by decide) (by decide) (by decide)

theorem calculate_portfolio_value_length (data : List (PDate × ℚ)) (m : ℚ)
    (h : data ≠ []) :
    (calculate_portfolio_value data m).length = (resampleME data).length := by
  unfold calculate_portfolio_value
  rw [if_neg (by simpa [List.isEmpty_iff] using h)]
  rw [List.length_map, pvTrace_length]

/-- C2: for every non-empty forecast series, the total invested returned by
`calculate_forecast_returns` is exactly the monthly contribution times the
number of monthly resampled periods, which is the length of the
portfolio-value series. -/
theorem c2_total_invested (data : List (PDate × ℚ)) (m : ℚ) (h : data ≠ []) :
    (calculate_forecast_returns data m).1 =
      m * ((calculate_portfolio_value data m).length : ℚ) ∧
    (calculate_portfolio_value data m).length = (resampleME data).length := by
  refine ⟨?_, calculate_portfolio_value_length data m h⟩
  unfold calculate_forecast_returns
  rw [if_neg (by simpa [List.isEmpty_iff] using h)]
  have hlen : (calculate_portfolio_value data m).length =
      (resampleME data).length := calculate_portfolio_value_length data m h
  have hpos : 0 < (calculate_portfolio_value data m).length := by
    rw [hlen]
    exact List.length_pos.mpr (resampleME_ne_nil data h)
  rw [if_neg (Nat.pos_iff_ne_zero.mp hpos)]
  by_cases hz : m * ((calculate_portfolio_value data m).length : ℚ) = 0
  · rw [if_pos hz]
    simpa using hz.symm
  · rw [if_neg hz]

/-- C2 witness: two forecast entries spanning January–March 2025 resample to
3 monthly periods, so a 100-per-month plan invests exactly 300. -/
theorem c2_total_invested_witness :
    (calculate_forecast_returns
        [(⟨2025, 1, 10⟩, 100), (⟨2025, 3, 5⟩, 120)] 100).1 =
      100 * ((calculate_portfolio_value
        [(⟨2025, 1, 10⟩, 100), (⟨2025, 3, 5⟩, 120)] 100).length : ℚ) ∧
    (calculate_portfolio_value
        [(⟨2025, 1, 10⟩, 100), (⟨2025, 3, 5⟩, 120)] 100).length =
      (resampleME [(⟨2025, 1, 10⟩, 100), (⟨2025, 3, 5⟩, 120)]).length :=
  c2_total_invested [(⟨2025, 1, 10⟩, 100), (⟨2025, 3, 5⟩, 120)] 100
    (by decide)

/-! ## Claim C1 — confidence-interval ordering -/

/-- The claimed per-timestep bound ordering: at index `i` all three series
are defined (not NaN) and `lower ≤ median ≤ upper` with `0 ≤ lower`. -/
def ciOrderedAt (predictions : List ℚ) (upper lower : List (Option ℚ))
    (i : ℕ) : Bool :=
  match predictions.get? i, upper.get? i, lower.get? i with
  | some p, some (some u), some (some l) =>
      decide (l ≤ p) && decide (p ≤ u) && decide (0 ≤ l)
  | _, _, _ => false

theorem get?_range_map {α : Type} (f : ℕ → α) (n i : ℕ) (h : i < n) :
    ((List.range n).map f).get? i = some (f i) := by
  rw [List.get?_map, List.get?_range h]
  rfl

theorem get?_getD (l : List ℚ) (i : ℕ) (h : i < l.length) :
    l.get? i = some (l.getD i 0) := by
  rw [List.get?_eq_getElem?, List.getElem?_eq_getElem h,
    List.getD_eq_getElem?_getD, List.getElem?_eq_getElem h]
  rfl

theorem ciUpper_get? (sqrtQ : ℚ → ℚ) (tV : ℚ) (preds : List ℚ) (i : ℕ)
    (h : i < preds.length) :
    (ciUpper sqrtQ tV preds).get? i =
      some ((ciMargin sqrtQ tV preds i).map
        (fun m => preds.getD i 0 + m)) := by
  unfold ciUpper
  exact get?_range_map _ _ _ h

theorem ciLower_get? (sqrtQ : ℚ → ℚ) (tV : ℚ) (preds : List ℚ) (i : ℕ)
    (h : i < preds.length) :
    (ciLower sqrtQ tV preds).get? i =
      some ((ciMargin sqrtQ tV preds i).map
        (fun m => max 0 (preds.getD i 0 - m))) := by
  unfold ciLower
  exact get?_range_map _ _ _ h

theorem cci_fst (sqrtQ : ℚ → ℚ) (tV : ℚ) (preds : List ℚ)
    (h : preds.length ≠ 0) :
    (calculate_confidence_intervals sqrtQ tV preds).1 =
      ciUpper sqrtQ tV preds := by
  unfold calculate_confidence_intervals
  rw [if_neg h]

theorem cci_snd (sqrtQ : ℚ → ℚ) (tV : ℚ) (preds : List ℚ)
    (h : preds.length ≠ 0) :
    (calculate_confidence_intervals sqrtQ tV preds).2 =
      ciLower sqrtQ tV preds := by
  unfold calculate_confidence_intervals
  rw [if_neg h]

theorem rollingWindow_length (w : ℕ) (xs : List ℚ) (i : ℕ)
    (h : i < xs.length) :
    (rollingWindow w xs i).length = min (i + 1) w := by
  unfold rollingWindow
  rw [List.length_drop, List.length_take]
  omega

theorem ratSqrt_zero : ratSqrt 0 = 0 := by
  unfold ratSqrt
  rw [if_pos (le_refl 0)]
  norm_num [Nat.sqrt_zero]

theorem sortedZeros :
    List.Sorted (· ≤ ·) (List.replicate 99 (0 : ℚ) ++ [1000]) := by
  rw [List.Sorted, List.pairwise_append]
  refine ⟨(List.pairwise_replicate).mpr (Or.inr le_rfl),
    List.sorted_singleton _, ?_⟩
  intro x hx y hy
  rw [List.eq_of_mem_replicate hx, List.mem_singleton.mp hy]
  norm_num

/-- The 95th percentile of 99 zero tree-predictions and one at 1000. -/
theorem ml95 : npPercentile (List.replicate 99 (0 : ℚ) ++ [1000]) 95 = 0 := by
  simp only [npPercentile, List.Sorted.insertionSort_eq sortedZeros,
    List.length_append, List.length_replicate, List.length_cons,
    List.length_nil]
  have hh : (95 : ℚ) * ((((99 + 1) : ℕ) : ℚ) - 1) / 100 = 9405 / 100 := by
    norm_num
  rw [hh]
  have hfl : ⌊(9405 : ℚ) / 100⌋ = 94 := by
    rw [Int.floor_eq_iff]
    norm_num
  rw [hfl]
  have h94 : (List.replicate 99 (0 : ℚ) ++ [1000]).getD 94 0 = 0 := by
    rw [List.getD_eq_getElem?_getD, List.getElem?_append]
    · simp
  have h95 : (List.replicate 99 (0 : ℚ) ++ [1000]).getD 95 0 = 0 := by
    rw [List.getD_eq_getElem?_getD, List.getElem?_append]
    · simp
  rw [show ((94 : ℤ).toNat = 94) from rfl]
  rw [h94, h95]
  ring

/-- The mean of 99 zero tree-predictions and one at 1000. -/
theorem mlMean : listMean (List.replicate 99 (0 : ℚ) ++ [1000]) = 10 := by
  unfold listMean
  simp
  norm_num

/-- C1 counterexample.  Analytic path, forecast `[-10, -10]` (a linear trend
model can predict negative prices): at t = 0 the rolling standard deviation
of a single observation is NaN, so upper and lower are NaN and no ordering
holds; at t = 1 the margin is 0, the clip lifts the lower bound to 0, and
`lower = 0 > -10 = median`.  ML path, tree predictions 99 × 0 and 1 × 1000:
the mean point forecast 10 exceeds the 95th-percentile upper bound 0.  Each
part refutes `lower ≤ median ≤ upper` as claimed. -/
theorem c1_counterexample :
    ciOrderedAt [-10, -10]
      (calculate_confidence_intervals ratSqrt 13 [-10, -10]).1
      (calculate_confidence_intervals ratSqrt 13 [-10, -10]).2 0 = false ∧
    ciOrderedAt [-10, -10]
      (calculate_confidence_intervals ratSqrt 13 [-10, -10]).1
      (calculate_confidence_intervals ratSqrt 13 [-10, -10]).2 1 = false ∧
    (calculate_confidence_intervals ratSqrt 13 [-10, -10]).2.get? 1 =
      some (some 0) ∧
    ¬ ((mlStepInterval (List.replicate 99 (0 : ℚ) ++ [1000])).1 ≤
        (mlStepInterval (List.replicate 99 (0 : ℚ) ++ [1000])).2.2) := by
  have hlen : ([(-10 : ℚ), -10].length ≠ 0) := by norm_num
  have hm0 : ciMargin ratSqrt 13 [-10, -10] 0 = none := by
    simp [ciMargin, ciRollingStd, rollingStdAt, rollingWindow]
  have hvar : sampleVar [(-10 : ℚ), -10] = 0 := by
    norm_num [sampleVar, listMean]
  have hm1 : ciMargin ratSqrt 13 [-10, -10] 1 = some 0 := by
    simp only [ciMargin, ciRollingStd, rollingStdAt, rollingWindow]
    norm_num [hvar, ratSqrt_zero]
  have hu1 : (calculate_confidence_intervals ratSqrt 13 [-10, -10]).1.get? 1 =
      some (some (-10)) := by
    rw [cci_fst _ _ _ hlen, ciUpper_get? _ _ _ 1 (by norm_num), hm1]
    norm_num
  have hl1 : (calculate_confidence_intervals ratSqrt 13 [-10, -10]).2.get? 1 =
      some (some 0) := by
    rw [cci_snd _ _ _ hlen, ciLower_get? _ _ _ 1 (by norm_num), hm1]
    norm_num
  have hu0 : (calculate_confidence_intervals ratSqrt 13 [-10, -10]).1.get? 0 =
      some none := by
    rw [cci_fst _ _ _ hlen, ciUpper_get? _ _ _ 0 (by norm_num), hm0]
    rfl
  have hl0 : (calculate_confidence_intervals ratSqrt 13 [-10, -10]).2.get? 0 =
      some none := by
    rw [cci_snd _ _ _ hlen, ciLower_get? _ _ _ 0 (by norm_num), hm0]
    rfl
  refine ⟨?_, ?_, hl1, ?_⟩
  · unfold ciOrderedAt
    rw [hu0, hl0]
    rfl
  · unfold ciOrderedAt
    rw [hu1, hl1]
    rfl
  · simp only [mlStepInterval, ml95, mlMean]
    norm_num

/-- C1 amended (analytic path): with a non-negative t-critical value and any
non-negativity-preserving square root, for every timestep `t ≥ 1` whose
point forecast is non-negative the bounds are defined and satisfy
`lower[t] ≤ median[t] ≤ upper[t]` with `lower[t] ≥ 0`.  (At `t = 0` the
bounds are NaN, and a negative median drops below the clipped lower bound;
the ML variant's mean need not lie inside its percentile band.) -/
theorem c1_analytic_bounds (sqrtQ : ℚ → ℚ) (tValue : ℚ) (preds : List ℚ)
    (i : ℕ) (hs : ∀ x, 0 ≤ x → 0 ≤ sqrtQ x) (ht : 0 ≤ tValue)
    (h1 : 1 ≤ i) (h2 : i < preds.length) (hp : 0 ≤ preds.getD i 0) :
    ciOrderedAt preds
      (calculate_confidence_intervals sqrtQ tValue preds).1
      (calculate_confidence_intervals sqrtQ tValue preds).2 i = true := by
  have hlen : preds.length ≠ 0 := by omega
  have hwl : (rollingWindow 30 preds i).length = min (i + 1) 30 :=
    rollingWindow_length 30 preds i h2
  have hw2 : 2 ≤ (rollingWindow 30 preds i).length := by omega
  have hstd : ciRollingStd sqrtQ preds i =
      some (sqrtQ (sampleVar (rollingWindow 30 preds i))) := by
    unfold ciRollingStd rollingStdAt
    simp only []
    rw [if_pos ⟨by omega, hw2⟩]
  have hm : ciMargin sqrtQ tValue preds i =
      some (tValue * sqrtQ (sampleVar (rollingWindow 30 preds i)) *
        timeFactor sqrtQ preds.length i) := by
    unfold ciMargin
    rw [hstd]
    rfl
  have hs0 : 0 ≤ sqrtQ (sampleVar (rollingWindow 30 preds i)) :=
    hs _ (sampleVar_nonneg _ hw2)
  have htf : 0 ≤ timeFactor sqrtQ preds.length i := by
    apply hs
    positivity
  have hm0 : 0 ≤ tValue * sqrtQ (sampleVar (rollingWindow 30 preds i)) *
      timeFactor sqrtQ preds.length i :=
    mul_nonneg (mul_nonneg ht hs0) htf
  have hu : (calculate_confidence_intervals sqrtQ tValue preds).1.get? i =
      some (some (preds.getD i 0 +
        tValue * sqrtQ (sampleVar (rollingWindow 30 preds i)) *
          timeFactor sqrtQ preds.length i)) := by
    rw [cci_fst _ _ _ hlen, ciUpper_get? _ _ _ i h2, hm]
    rfl
  have hl : (calculate_confidence_intervals sqrtQ tValue preds).2.get? i =
      some (some (max 0 (preds.getD i 0 -
        tValue * sqrtQ (sampleVar (rollingWindow 30 preds i)) *
          timeFactor sqrtQ preds.length i))) := by
    rw [cci_snd _ _ _ hlen, ciLower_get? _ _ _ i h2, hm]
    rfl
  unfold ciOrderedAt
  rw [get?_getD preds i h2, hu, hl]
  simp only [Bool.and_eq_true, decide_eq_true_eq]
  refine ⟨⟨?_, ?_⟩, ?_⟩
  · exact max_le hp (by linarith)
  · linarith
  · exact le_max_left 0 _

/-- C1 witness: the amended bound ordering at t = 1 of the concrete
forecast `[100, 100]` with t-critical value 13 and the rational square
root stand-in. -/
theorem c1_analytic_bounds_witness :
    ciOrderedAt [100, 100]
      (calculate_confidence_intervals ratSqrt 13 [100, 100]).1
      (calculate_confidence_intervals ratSqrt 13 [100, 100]).2 1 = true :=
  c1_analytic_bounds ratSqrt 13 [100, 100] 1
    (fun x _ => ratSqrt_nonneg x) (by norm_num) (le_refl 1)
    (by norm_num) (by norm_num [List.getD])

/-! ## Claim C8 — monotonicity of the confidence margin -/

theorem ratSqrt_pos (x : ℚ) (hx : 0 < x) : 0 < ratSqrt x := by
  unfold ratSqrt
  rw [if_pos hx.le]
  apply div_pos
  · have hnum : 0 < x.num := Rat.num_pos.mpr hx
    have : 0 < x.num.toNat * x.den :=
      Nat.mul_pos (by omega) x.pos
    exact_mod_cast Nat.cast_pos.mpr (Nat.sqrt_pos.mpr this)
  · exact_mod_cast x.pos

/-- C8 counterexample: for the forecast `0, 100, 100, …, 100` (31 points)
the margin at step 1 is positive (the window `[0, 100]` has positive
variance), while at step 30 the rolling window has shed the initial point,
the rolling standard deviation is 0 and the margin is 0 — the margin
decreases between step 1 and step 30, refuting monotone non-decrease. -/
theorem c8_counterexample :
    ciMargin ratSqrt 2 ((0 : ℚ) :: List.replicate 30 100) 30 = some 0 ∧
    0 < (ciMargin ratSqrt 2 ((0 : ℚ) :: List.replicate 30 100) 1).getD 0 := by
  constructor
  · have hwin : rollingWindow 30 ((0 : ℚ) :: List.replicate 30 100) 30 =
        List.replicate 30 100 := by
      unfold rollingWindow
      rw [List.take_of_length_le (by simp)]
      rfl
    have hvar : sampleVar (List.replicate 30 (100 : ℚ)) = 0 := by
      unfold sampleVar listMean
      rw [List.sum_replicate, List.length_replicate]
      norm_num [List.map_replicate, List.sum_replicate]
    simp only [ciMargin, ciRollingStd, rollingStdAt, hwin, hvar, ratSqrt_zero,
      List.length_replicate]
    norm_num
  · have hwin : rollingWindow 30 ((0 : ℚ) :: List.replicate 30 100) 1 =
        [0, 100] := by
      unfold rollingWindow
      rfl
    have hvar : sampleVar [(0 : ℚ), 100] = 5000 := by
      norm_num [sampleVar, listMean]
    simp only [ciMargin, ciRollingStd, rollingStdAt, hwin, hvar]
    rw [if_pos (by norm_num)]
    simp only [Option.map_some', Option.getD_some]
    have h1 : 0 < ratSqrt 5000 := ratSqrt_pos 5000 (by norm_num)
    have h2 : 0 < timeFactor ratSqrt
        ((0 : ℚ) :: List.replicate 30 100).length 1 := by
      have hlen : ((0 : ℚ) :: List.replicate 30 100).length = 31 := by simp
      unfold timeFactor
      rw [hlen]
      apply ratSqrt_pos
      positivity
    exact mul_pos (mul_pos (by norm_num) h1) h2

/-- C8 amended: the time-scaling factor `sqrt((t+1)/n)` of the margin is
monotonically non-decreasing in the step index `t` for every monotone
square root; the margin itself also carries the rolling standard deviation
of the forecast, which can decrease (see the counterexample), so the full
margin need not be monotone. -/
theorem c8_time_factor_monotone (sqrtQ : ℚ → ℚ)
    (hmono : ∀ x y : ℚ, 0 ≤ x → x ≤ y → sqrtQ x ≤ sqrtQ y)
    (n i j : ℕ) (hij : i ≤ j) (hj : j < n) :
    timeFactor sqrtQ n i ≤ timeFactor sqrtQ n j := by
  unfold timeFactor
  have hn : 0 < (n : ℚ) := by
    have : 0 < n := by omega
    exact_mod_cast this
  apply hmono
  · positivity
  · apply div_le_div_of_nonneg_right ?_ hn.le
    have : (i : ℚ) ≤ (j : ℚ) := by exact_mod_cast hij
    linarith

/-- C8 witness: the identity function is a monotone square-root stand-in;
the time factor at step 1 of a 31-point forecast is at most the one at
step 30. -/
theorem c8_time_factor_monotone_witness :
    timeFactor id 31 1 ≤ timeFactor id 31 30 :=
  c8_time_factor_monotone id (fun x y _ h => h) 31 1 30
    (by norm_num) (by norm_num)

/-! ## Claims C3 / C10 — forecast shape and the 200-record threshold -/

theorem bfill_length (l : List (Option ℚ)) : (bfill l).length = l.length := by
  induction l with
  | nil => rfl
  | cons a rest ih =>
      cases a with
      | some x => simp [bfill, ih]
      | none =>
          simp only [bfill]
          cases hf : (bfill rest).find? Option.isSome with
          | some v => simp [hf, ih]
          | none => simp [hf, ih]

theorem bfill_all_none (l : List (Option ℚ)) (h : ∀ x ∈ l, x = none) :
    bfill l = l := by
  induction l with
  | nil => rfl
  | cons a rest ih =>
      have ha : a = none := h a (List.mem_cons_self a rest)
      subst ha
      have hr : bfill rest = rest :=
        ih (fun x hx => h x (List.mem_cons_of_mem _ hx))
      simp only [bfill, hr]
      cases hf : rest.find? Option.isSome with
      | some v =>
          have hv := List.find?_some hf
          have hmem := List.mem_of_find?_eq_some hf
          rw [h v (List.mem_cons_of_mem _ hmem)] at hv
          simp at hv
      | none => rfl

theorem bfill_forall_isSome (l : List (Option ℚ)) (x : ℚ)
    (h : l.getLast? = some (some x)) :
    ∀ o ∈ bfill l, o.isSome = true := by
  induction l with
  | nil => simp at h
  | cons a rest ih =>
      cases rest with
      | nil =>
          simp only [List.getLast?_singleton, Option.some.injEq] at h
          subst h
          intro o ho
          simp only [bfill] at ho
          simp only [List.mem_singleton] at ho
          subst ho
          rfl
      | cons b t =>
          rw [List.getLast?_cons_cons] at h
          have hall := ih h
          have hlen : 0 < (bfill (b :: t)).length := by
            rw [bfill_length]
            simp
          cases a with
          | some y =>
              intro o ho
              simp only [bfill] at ho
              rcases List.mem_cons.mp ho with rfl | hmem
              · rfl
              · exact hall o hmem
          | none =>
              intro o ho
              simp only [bfill] at ho
              cases hf : (bfill (b :: t)).find? Option.isSome with
              | some v =>
                  rw [hf] at ho
                  rcases List.mem_cons.mp ho with rfl | hmem
                  · exact List.find?_some hf
                  · exact hall o hmem
              | none =>
                  obtain ⟨o0, t0, ho0⟩ : ∃ o0 t0, bfill (b :: t) = o0 :: t0 := by
                    cases hb : bfill (b :: t) with
                    | nil => rw [hb] at hlen; simp at hlen
                    | cons o0 t0 => exact ⟨o0, t0, rfl⟩
                  have := List.find?_eq_none.mp hf o0 (by rw [ho0]; simp)
                  exact absurd (hall o0 (by rw [ho0]; simp)) this

theorem getD_range_map {α : Type} (f : ℕ → α) (n i : ℕ) (d : α) (h : i < n) :
    ((List.range n).map f).getD i d = f i := by
  rw [List.getD_eq_getElem?_getD, List.getElem?_map, List.getElem?_range h]
  rfl

theorem range_map_getLast? {α : Type} (f : ℕ → α) (n : ℕ) (h : 0 < n) :
    ((List.range n).map f).getLast? = some (f (n - 1)) := by
  rw [List.getLast?_eq_getElem?, List.getElem?_map]
  simp only [List.length_map, List.length_range]
  rw [List.getElem?_range (by omega)]
  rfl

/-- A backfilled rolling column is everywhere defined as soon as its last
entry is: bfill pulls that value over every leading NaN. -/
theorem bfill_col_isSome (f : ℕ → Option ℚ) (n i : ℕ) (hi : i < n)
    (hlast : (f (n - 1)).isSome = true) :
    ((bfill ((List.range n).map f)).getD i none).isSome = true := by
  obtain ⟨x, hx⟩ := Option.isSome_iff_exists.mp hlast
  have hlast' : ((List.range n).map f).getLast? = some (some x) := by
    rw [range_map_getLast? f n (by omega), hx]
  apply bfill_forall_isSome _ x hlast'
  have hlen : i < (bfill ((List.range n).map f)).length := by
    rw [bfill_length]
    simpa using hi
  rw [List.getD_eq_getElem?_getD, List.getElem?_eq_getElem hlen]
  exact List.getElem_mem _

/-- C10: a non-empty series with fewer than 200 records leaves the entire
200-day moving-average column NaN — the backfill has no later valid value
to pull — so feature scaling raises, the `except` branch catches it, and
`create_forecast` returns an empty series, for every horizon. -/
theorem c10_short_series_empty (sqrtQ : ℚ → ℚ)
    (fitPredict : List FeatureRow → List ℚ → FeatureRow → ℚ)
    (s : List (PDate × ℚ)) (monthsAhead : ℕ)
    (hne : s ≠ []) (hlen : s.length < 200) :
    create_forecast sqrtQ fitPredict s monthsAhead = [] := by
  have hn : 0 < s.length := List.length_pos.mpr hne
  have hcl : (s.map Prod.snd).length = s.length := by simp
  have h200 : (ma200Col (s.map Prod.snd)).getD 0 none = none := by
    unfold ma200Col
    rw [bfill_all_none]
    · rw [hcl, getD_range_map _ _ _ _ hn]
      unfold rollingMeanAt
      rw [if_neg (by omega)]
    · intro x hx
      obtain ⟨i, hi, rfl⟩ := List.mem_map.mp hx
      have hilt : i < s.length := by
        have := List.mem_range.mp hi
        omega
      unfold rollingMeanAt
      rw [if_neg (by omega)]
  have hrow0 : trainRow sqrtQ s 0 = none := by
    simp only [trainRow]
    cases hma : (ma50Col (List.map Prod.snd s)).getD 0 none with
    | none => rfl
    | some a =>
        rw [h200]
        rfl
  have hnall : ¬ (((List.range s.length).map (trainRow sqrtQ s)).all
      Option.isSome = true) := by
    rw [List.all_eq_true]
    push_neg
    exact ⟨trainRow sqrtQ s 0,
      List.mem_map.mpr ⟨0, List.mem_range.mpr hn, rfl⟩,
      by rw [hrow0]; simp⟩
  unfold create_forecast
  rw [if_neg (by simpa [List.isEmpty_iff] using hne)]
  simp only []
  rw [if_neg hnall]

/-- C10 witness: 40 records — more than the smallest (30-day) window, fewer
than 200 — still yield an empty forecast. -/
theorem c10_short_series_empty_witness :
    create_forecast ratSqrt (fun _ _ _ => 0)
      ((List.range 40).map (fun i => (addDays ⟨2025, 1, 1⟩ i, (1 : ℚ)))) 6 =
      [] :=
  c10_short_series_empty ratSqrt (fun _ _ _ => 0) _ 6
    (by simp) (by simp)

/-- A series of at least 200 records has every feature defined after the
backfill, so the model fits and the forecast covers the full horizon. -/
theorem create_forecast_length_of_long (sqrtQ : ℚ → ℚ)
    (fitPredict : List FeatureRow → List ℚ → FeatureRow → ℚ)
    (s : List (PDate × ℚ)) (monthsAhead : ℕ) (hs : 200 ≤ s.length) :
    (create_forecast sqrtQ fitPredict s monthsAhead).length =
      monthsAhead * 30 := by
  have hn : 0 < s.length := by omega
  have hne : s ≠ [] := by
    intro h
    rw [h] at hn
    simp at hn
  have hcl : (s.map Prod.snd).length = s.length := by simp
  have hall : (((List.range s.length).map (trainRow sqrtQ s)).all
      Option.isSome = true) := by
    rw [List.all_eq_true]
    intro r hr
    obtain ⟨i, hi, rfl⟩ := List.mem_map.mp hr
    have hilt : i < s.length := List.mem_range.mp hi
    have h50 : ((ma50Col (s.map Prod.snd)).getD i none).isSome = true := by
      unfold ma50Col
      rw [hcl]
      apply bfill_col_isSome _ _ _ hilt
      unfold rollingMeanAt
      rw [if_pos (by omega)]
      rfl
    have h200 : ((ma200Col (s.map Prod.snd)).getD i none).isSome = true := by
      unfold ma200Col
      rw [hcl]
      apply bfill_col_isSome _ _ _ hilt
      unfold rollingMeanAt
      rw [if_pos (by omega)]
      rfl
    have hvol : ((volCol sqrtQ (s.map Prod.snd)).getD i none).isSome =
        true := by
      unfold volCol
      rw [hcl]
      apply bfill_col_isSome _ _ _ hilt
      have hwl := rollingWindow_length 30 (s.map Prod.snd) (s.length - 1)
        (by omega)
      unfold rollingStdAt
      simp only []
      rw [if_pos ⟨by omega, by omega⟩]
      rfl
    have hget : (s.get? i).isSome = true := by
      rw [List.get?_eq_getElem?, List.getElem?_eq_getElem hilt]
      rfl
    obtain ⟨a, ha⟩ := Option.isSome_iff_exists.mp h50
    obtain ⟨b, hb⟩ := Option.isSome_iff_exists.mp h200
    obtain ⟨v, hv⟩ := Option.isSome_iff_exists.mp hvol
    obtain ⟨r, hrr⟩ := Option.isSome_iff_exists.mp hget
    simp only [trainRow]
    rw [ha, hb, hv, hrr]
    rfl
  unfold create_forecast
  rw [if_neg (by simpa [List.isEmpty_iff] using hne)]
  simp only []
  rw [if_pos hall]
  simp

theorem cci_lengths (sqrtQ : ℚ → ℚ) (tV : ℚ) (preds : List ℚ) :
    (calculate_confidence_intervals sqrtQ tV preds).1.length =
      preds.length ∧
    (calculate_confidence_intervals sqrtQ tV preds).2.length =
      preds.length := by
  unfold calculate_confidence_intervals ciUpper ciLower
  by_cases h : preds.length = 0
  · rw [if_pos h]
    simp [h]
  · rw [if_neg h]
    simp

/-- C3: whenever `create_forecast` with horizon `M` months returns a
non-empty series, that series has exactly `M * 30` entries, and the upper
and lower series of `calculate_confidence_intervals` over it have the same
length as the point forecast. -/
theorem c3_forecast_lengths (sqrtQ : ℚ → ℚ)
    (fitPredict : List FeatureRow → List ℚ → FeatureRow → ℚ) (tV : ℚ)
    (s : List (PDate × ℚ)) (M : ℕ)
    (h : create_forecast sqrtQ fitPredict s M ≠ []) :
    (create_forecast sqrtQ fitPredict s M).length = M * 30 ∧
    (calculate_confidence_intervals sqrtQ tV
        ((create_forecast sqrtQ fitPredict s M).map Prod.snd)).1.length =
      (create_forecast sqrtQ fitPredict s M).length ∧
    (calculate_confidence_intervals sqrtQ tV
        ((create_forecast sqrtQ fitPredict s M).map Prod.snd)).2.length =
      (create_forecast sqrtQ fitPredict s M).length := by
  refine ⟨?_, ?_, ?_⟩
  · by_cases he : s.isEmpty = true
    · unfold create_forecast at h
      rw [if_pos he] at h
      exact absurd rfl h
    · by_cases hall : (((List.range s.length).map (trainRow sqrtQ s)).all
          Option.isSome = true)
      · unfold create_forecast
        rw [if_neg he]
        simp only []
        rw [if_pos hall]
        simp
      · unfold create_forecast at h
        rw [if_neg he] at h
        simp only [] at h
        rw [if_neg hall] at h
        exact absurd rfl h
  · exact (cci_lengths sqrtQ tV _).1.trans (by simp)
  · exact (cci_lengths sqrtQ tV _).2.trans (by simp)

/-- C3 witness: 200 constant-price daily records from 2025-01-01, horizon
6 months — the forecast has 180 entries and matching interval lengths. -/
theorem c3_forecast_lengths_witness :
    (create_forecast ratSqrt (fun _ _ _ => 0)
        ((List.range 200).map (fun i => (addDays ⟨2025, 1, 1⟩ i, (1 : ℚ))))
        6).length = 6 * 30 ∧
    (calculate_confidence_intervals ratSqrt 13
        ((create_forecast ratSqrt (fun _ _ _ => 0)
          ((List.range 200).map (fun i => (addDays ⟨2025, 1, 1⟩ i, (1 : ℚ))))
          6).map Prod.snd)).1.length =
      (create_forecast ratSqrt (fun _ _ _ => 0)
        ((List.range 200).map (fun i => (addDays ⟨2025, 1, 1⟩ i, (1 : ℚ))))
        6).length ∧
    (calculate_confidence_intervals ratSqrt 13
        ((create_forecast ratSqrt (fun _ _ _ => 0)
          ((List.range 200).map (fun i => (addDays ⟨2025, 1, 1⟩ i, (1 : ℚ))))
          6).map Prod.snd)).2.length =
      (create_forecast ratSqrt (fun _ _ _ => 0)
        ((List.range 200).map (fun i => (addDays ⟨2025, 1, 1⟩ i, (1 : ℚ))))
        6).length :=
  c3_forecast_lengths ratSqrt (fun _ _ _ => 0) 13
    ((List.range 200).map (fun i => (addDays ⟨2025, 1, 1⟩ i, (1 : ℚ)))) 6
    (by
      have hl := create_forecast_length_of_long ratSqrt (fun _ _ _ => 0)
        ((List.range 200).map (fun i => (addDays ⟨2025, 1, 1⟩ i, (1 : ℚ))))
        6 (by simp)
      intro hnil
      rw [hnil] at hl
      simp at hl)
